import Mathlib

/-!
Shallow embedding of `src/range_slider.py` (class `RangeSlider`).

Values and pixel positions are embedded as rationals (Python floats with
exact arithmetic); the `ZeroDivisionError` Python raises on `x / 0` is embedded by
`Option`-valued wrappers around the two position/value conversion closures,
and a Python exception escaping a method is embedded by returning the state
at the raise point (`Except` for methods called by host code, the partial
state itself for Tk event handlers, whose exceptions Tk absorbs after the
mutations already performed).

The model keeps the attribute and method names of the source.  Attributes that
are pure rendering state (canvas item ids, colours, y coordinates, entry
widths) are omitted; the on-screen x position of each head (what `__move_head`
writes) is kept as `head_in_x` / `head_out_x` because the claims mention it.
-/

namespace RangeSliderSpec

/-- `RangeSlider.HEAD_RADIUS` (class constant, value 10). -/
def HEAD_RADIUS : ℚ := 10

/-- The value of `self.__selected_head`: `None`, one of the two heads, or
`True` (both heads hit, the ambiguous case) as returned by
`__check_mouse_collision`. -/
inductive SelectedHead where
  | noneSel
  | headIn
  | headOut
  | both
deriving DecidableEq, Repr

/-- The mutable state of a `RangeSlider` instance (interaction-relevant
attributes of the Python object). -/
structure RangeSlider where
  value_min : ℚ
  value_max : ℚ
  value_in : ℚ
  value_out : ℚ
  slider_x_start : ℚ
  slider_x_end : ℚ
  value_display : ℚ → String
  inverse_display : Option (String → Option ℚ)
  entry_in_text : String
  entry_out_text : String
  head_in_x : ℚ
  head_out_x : ℚ
  selected_head : SelectedHead
  user_moved_sliders_since_last_check : Bool

/-- Body of the `pos_to_value` closure built in `change_min_max`
(line 87): `value_min + (value_max - value_min) * (p - slider_x_start) /
(slider_x_end - slider_x_start)`. -/
def pos_to_value_fn (value_min value_max slider_x_start slider_x_end p : ℚ) : ℚ :=
  value_min + (value_max - value_min) * (p - slider_x_start) / (slider_x_end - slider_x_start)

/-- Body of the `value_to_pos` closure built in `change_min_max`
(line 92): `slider_x_start + (slider_x_end - slider_x_start) * (v - value_min) /
(value_max - value_min)`. -/
def value_to_pos_fn (value_min value_max slider_x_start slider_x_end v : ℚ) : ℚ :=
  slider_x_start + (slider_x_end - slider_x_start) * (v - value_min) / (value_max - value_min)

/-- `self.__pos_to_value(p)`.  The closure always captures the current
`value_min` / `value_max` (it is rebuilt together with every change of those
fields).  `none` embeds the `ZeroDivisionError` Python raises when the pixel
span `slider_x_end - slider_x_start` is zero. -/
def pos_to_value (s : RangeSlider) (p : ℚ) : Option ℚ :=
  if s.slider_x_end - s.slider_x_start = 0 then none
  else some (pos_to_value_fn s.value_min s.value_max s.slider_x_start s.slider_x_end p)

/-- `self.__value_to_pos(v)`.  `none` embeds the `ZeroDivisionError` Python
raises when `value_max - value_min` is zero (the division is by the value
span here, unguarded in the source). -/
def value_to_pos (s : RangeSlider) (v : ℚ) : Option ℚ :=
  if s.value_max - s.value_min = 0 then none
  else some (value_to_pos_fn s.value_min s.value_max s.slider_x_start s.slider_x_end v)

/-- `change_min_max(value_min, value_max, reset, force)` (lines 75-109).
Fires only when the domain actually changes or `force` is set; on firing it
rebuilds the conversion closures (implicit here: `pos_to_value` /
`value_to_pos` read the current fields), resets or clamps the two values,
moves the `in` head to `slider_x_start` and the `out` head to
`slider_x_end` (lines 105-106), and clears the dirty flag.  Entry texts are
not touched by this method. -/
def change_min_max (s : RangeSlider) (value_min value_max : ℚ) (reset force : Bool) :
    RangeSlider :=
  if s.value_min ≠ value_min ∨ s.value_max ≠ value_max ∨ force = true then
    { s with
      value_min := value_min
      value_max := value_max
      value_in := if reset then value_min else min (max s.value_in value_min) value_max
      value_out := if reset then value_max else max (min s.value_out value_max) value_min
      head_in_x := s.slider_x_start
      head_out_x := s.slider_x_end
      user_moved_sliders_since_last_check := false }
  else s

/-- The entry-text refresh at the end of `change_display` (lines 127-133):
both entry variables are set to the formatted current values. -/
def set_entry_texts (s : RangeSlider) : RangeSlider :=
  { s with
    entry_in_text := s.value_display s.value_in
    entry_out_text := s.value_display s.value_out }

/-- `change_display(value_display, inverse_display)` (lines 111-135).  Both
codec attributes are assigned first; then, when a parser was supplied, the
round-trip gate `inverse_display(value_display(min)) != min or
inverse_display(value_display(max)) != max` (with the short-circuit Python semantics of
`or`) nulls the parser out on failure.  A `ValueError` raised by the parser
inside the gate is not caught: it escapes `change_display`, embedded as
`.error` carrying the state at the raise point (note the new parser is
already installed in that state). -/
def change_display (s : RangeSlider) (value_display : ℚ → String)
    (inverse_display : Option (String → Option ℚ)) : Except RangeSlider RangeSlider :=
  let s0 : RangeSlider :=
    { s with value_display := value_display, inverse_display := inverse_display }
  match inverse_display with
  | none => .ok (set_entry_texts s0)
  | some pr =>
    match pr (value_display s.value_min) with
    | none => .error s0
    | some a =>
      if a ≠ s.value_min then .ok (set_entry_texts { s0 with inverse_display := none })
      else
        match pr (value_display s.value_max) with
        | none => .error s0
        | some b =>
          if b ≠ s.value_max then .ok (set_entry_texts { s0 with inverse_display := none })
          else .ok (set_entry_texts s0)

/-- `have_sliders_moved()` (lines 184-189): returns the dirty flag and
resets it to `False`. -/
def have_sliders_moved (s : RangeSlider) : Bool × RangeSlider :=
  (s.user_moved_sliders_since_last_check,
   { s with user_moved_sliders_since_last_check := false })

/-- `__clicked_move(event)` (lines 225-247), the B1-motion handler, for a
pointer at x coordinate `x`.  The clamp `min(slider_x_end,
max(slider_x_start, event.x))` is applied first; then the three selection
cases.  The `in`/`out` branches additionally clamp against the value-derived position of the other
head, convert the position to a value, write it and the
formatted entry text, and move the head; the ambiguous (`True`) branch only
re-resolves the selection (`out` iff the clamped x strictly exceeds
`value_to_pos(value_out)`) and moves the chosen head.  A
`ZeroDivisionError` from either conversion closure aborts the handler with
no further mutation (embedded by returning the state unchanged, since no
mutation precedes the first conversion call in any branch). -/
def clicked_move (s : RangeSlider) (x : ℚ) : RangeSlider :=
  match s.selected_head with
  | .noneSel => s
  | .headIn =>
    let cx0 := min s.slider_x_end (max s.slider_x_start x)
    match value_to_pos s s.value_out with
    | none => s
    | some pos_out =>
      let cx := min pos_out cx0
      match pos_to_value s cx with
      | none => s
      | some bar_value =>
        { s with
          value_in := bar_value
          entry_in_text := s.value_display bar_value
          head_in_x := cx
          user_moved_sliders_since_last_check := true }
  | .headOut =>
    let cx0 := min s.slider_x_end (max s.slider_x_start x)
    match value_to_pos s s.value_in with
    | none => s
    | some pos_in =>
      let cx := max pos_in cx0
      match pos_to_value s cx with
      | none => s
      | some bar_value =>
        { s with
          value_out := bar_value
          entry_out_text := s.value_display bar_value
          head_out_x := cx
          user_moved_sliders_since_last_check := true }
  | .both =>
    let cx0 := min s.slider_x_end (max s.slider_x_start x)
    match value_to_pos s s.value_out with
    | none => s
    | some pos_out =>
      if pos_out < cx0 then
        { s with
          selected_head := .headOut
          head_out_x := cx0
          user_moved_sliders_since_last_check := true }
      else
        { s with
          selected_head := .headIn
          head_in_x := cx0
          user_moved_sliders_since_last_check := true }

/-- The commit handler `f` built by `__update_entry_bindings.builder`
(lines 277-304) for the `in` entry (`parity = 1`), applied to the state
whose `entry_in_text` is the committed field text.  Mutations are embedded
in source order, so a `ZeroDivisionError` in `value_to_pos` leaves
exactly the mutations performed before it (dirty flag and entry texts); a
parse failure (`ValueError` from `inverse_display`) happens before any
mutation. -/
def commit_entry_in (s : RangeSlider) : RangeSlider :=
  match s.inverse_display with
  | none => s
  | some pr =>
    match pr s.entry_in_text with
    | none => s
    | some proposed =>
      if proposed = s.value_in then s
      else
        let s1 := { s with user_moved_sliders_since_last_check := true }
        let this_value := min (max s1.value_min proposed) s1.value_max
        let s2 := { s1 with entry_in_text := s1.value_display this_value }
        if s2.value_out < this_value then
          let s3 := { s2 with entry_out_text := s2.value_display this_value }
          match value_to_pos s3 this_value with
          | none => s3
          | some p =>
            let s4 := { s3 with head_out_x := p }
            match value_to_pos s4 this_value with
            | none => s4
            | some p2 =>
              { s4 with head_in_x := p2, value_in := this_value, value_out := this_value }
        else
          match value_to_pos s2 this_value with
          | none => s2
          | some p2 =>
            { s2 with head_in_x := p2, value_in := this_value }

/-- The commit handler `f` built by `__update_entry_bindings.builder` for
the `out` entry (`parity = -1`), applied to the state whose
`entry_out_text` is the committed field text.  The push test
`this_value * parity > other * parity` with `parity = -1` is
`this_value < value_in`. -/
def commit_entry_out (s : RangeSlider) : RangeSlider :=
  match s.inverse_display with
  | none => s
  | some pr =>
    match pr s.entry_out_text with
    | none => s
    | some proposed =>
      if proposed = s.value_out then s
      else
        let s1 := { s with user_moved_sliders_since_last_check := true }
        let this_value := min (max s1.value_min proposed) s1.value_max
        let s2 := { s1 with entry_out_text := s1.value_display this_value }
        if this_value < s2.value_in then
          let s3 := { s2 with entry_in_text := s2.value_display this_value }
          match value_to_pos s3 this_value with
          | none => s3
          | some p =>
            let s4 := { s3 with head_in_x := p }
            match value_to_pos s4 this_value with
            | none => s4
            | some p2 =>
              { s4 with head_out_x := p2, value_in := this_value, value_out := this_value }
        else
          match value_to_pos s2 this_value with
          | none => s2
          | some p2 =>
            { s2 with head_out_x := p2, value_out := this_value }

/-- The default `value_display`, the Python format `f"{v:0.2f}"`, for rationals that
are exact multiples of 1/100 (the only values it is applied to in this
development; other rationals are truncated by floor rather than the Python
round-half-even, which never matters below).  `Int.fdiv (q.num * 100) q.den`
is the floor of `q * 100`. -/
def fmt2 (q : ℚ) : String :=
  let n : Int := Int.fdiv (q.num * 100) (q.den : Int)
  let m : Nat := n.natAbs
  (if n < 0 then "-" else "") ++ toString (m / 100) ++ "." ++
    (if m % 100 < 10 then "0" else "") ++ toString (m % 100)

/-- An integer formatter, the Python `lambda v: f"{v:0.0f}"` up to the same
floor-for-round approximation as `fmt2` (exact on integers, the only values
it is applied to in this development). -/
def fmt0 (q : ℚ) : String :=
  let n : Int := Int.fdiv q.num (q.den : Int)
  (if n < 0 then "-" else "") ++ toString n.natAbs

/-- Value of a decimal digit character. -/
def digit? (c : Char) : Option Nat :=
  if c = '0' then some 0 else if c = '1' then some 1 else if c = '2' then some 2
  else if c = '3' then some 3 else if c = '4' then some 4 else if c = '5' then some 5
  else if c = '6' then some 6 else if c = '7' then some 7 else if c = '8' then some 8
  else if c = '9' then some 9 else none

/-- Value of a digit run, most significant first; `none` when any character
is not a digit. -/
def digitsValAux (acc : Nat) : List Char → Option Nat
  | [] => some acc
  | c :: cs =>
    match digit? c with
    | none => none
    | some d => digitsValAux (acc * 10 + d) cs

/-- Value of a nonempty digit run; `none` on the empty run or a non-digit. -/
def digitsVal : List Char → Option Nat
  | [] => none
  | l => digitsValAux 0 l

/-- The unsigned part of `float(s)`: a digit run, optionally split by a
single dot with at least one digit on one side. -/
def qparseBody (l : List Char) : Option ℚ :=
  let ipart := l.takeWhile (fun c => c ≠ '.')
  match l.dropWhile (fun c => c ≠ '.') with
  | [] => (digitsVal ipart).map (fun n => (n : ℚ))
  | _ :: fpart =>
    if fpart.any (fun c => c = '.') then none
    else
      match ipart, fpart with
      | [], [] => none
      | [], f => (digitsVal f).map (fun m => (m : ℚ) / (10 : ℚ) ^ f.length)
      | i, [] => (digitsVal i).map (fun n => (n : ℚ))
      | i, f =>
        match digitsVal i, digitsVal f with
        | some n, some m => some ((n : ℚ) + (m : ℚ) / (10 : ℚ) ^ f.length)
        | _, _ => none

/-- The default `inverse_display`, the Python built-in `float(s)`, on plain decimal
literals: optional leading minus, digits with at most one dot.  `none`
embeds the `ValueError` raised on anything else (e.g. on `"?"`);
the extra `float` forms (whitespace, exponents, `inf`/`nan`) are outside the
strings this development applies it to. -/
def qparse (s : String) : Option ℚ :=
  match s.data with
  | [] => none
  | '-' :: l => (qparseBody l).map (fun q => -q)
  | l => qparseBody l

/-- The state built by `__init__(master, value_min, value_max, width, ...)`
just before its final `change_display` call: attribute initialisation
(lines 27-63, including `value_in = value_min`, `value_out = value_max`,
`slider_x_start = HEAD_RADIUS`, `slider_x_end = width - HEAD_RADIUS`, the
initial head placement of `__add_head`) followed by
`change_min_max(value_min, value_max, force=True)`. -/
def fresh_raw (value_min value_max width : ℚ) (value_display : ℚ → String)
    (inverse_display : Option (String → Option ℚ)) : RangeSlider :=
  let s0 : RangeSlider :=
    { value_min := value_min
      value_max := value_max
      value_in := value_min
      value_out := value_max
      slider_x_start := HEAD_RADIUS
      slider_x_end := width - HEAD_RADIUS
      value_display := value_display
      inverse_display := inverse_display
      entry_in_text := ""
      entry_out_text := ""
      head_in_x := if value_min ≠ 0 then width - HEAD_RADIUS else HEAD_RADIUS
      head_out_x := if value_max ≠ 0 then width - HEAD_RADIUS else HEAD_RADIUS
      selected_head := .noneSel
      user_moved_sliders_since_last_check := false }
  change_min_max s0 value_min value_max true true

/-- A freshly constructed widget: `fresh_raw` followed by the constructor call of
`change_display(value_display, inverse_display)` call (line 73), which can
raise out of `__init__` (`.error`). -/
def fresh (value_min value_max width : ℚ) (value_display : ℚ → String)
    (inverse_display : Option (String → Option ℚ)) : Except RangeSlider RangeSlider :=
  change_display (fresh_raw value_min value_max width value_display inverse_display)
    value_display inverse_display

/-- One user-driven operation: a B1-motion event with the given prior
hit-test result (`__onclick` stores it in `selected_head`), or typing a
text into one of the entries and committing it (FocusOut / Return /
Escape all run the same handler). -/
inductive Op where
  | dragIn (x : ℚ)
  | dragOut (x : ℚ)
  | dragBoth (x : ℚ)
  | entryIn (t : String)
  | entryOut (t : String)

/-- Apply one operation to the widget state. -/
def apply_op (s : RangeSlider) : Op → RangeSlider
  | .dragIn x => clicked_move { s with selected_head := .headIn } x
  | .dragOut x => clicked_move { s with selected_head := .headOut } x
  | .dragBoth x => clicked_move { s with selected_head := .both } x
  | .entryIn t => commit_entry_in { s with entry_in_text := t }
  | .entryOut t => commit_entry_out { s with entry_out_text := t }

/-- The ordering invariant of the spec over the four value fields. -/
def ordering_inv (s : RangeSlider) : Prop :=
  s.value_min ≤ s.value_in ∧ s.value_in ≤ s.value_out ∧ s.value_out ≤ s.value_max

instance (s : RangeSlider) : Decidable (ordering_inv s) := by
  unfold ordering_inv; infer_instance

/-- Projection of `Except` results: the normally returned state, if any. -/
def okState : Except RangeSlider RangeSlider → Option RangeSlider
  | .ok s => some s
  | .error _ => none

/-- Projection of `Except` results: the state at the raise point, if the
call raised. -/
def errState : Except RangeSlider RangeSlider → Option RangeSlider
  | .error s => some s
  | .ok _ => none

/-- Strip the `Except` wrapper (used to name concrete constructed widgets;
meaningful only where the construction is separately shown to be `.ok`). -/
def unwrapOk : Except RangeSlider RangeSlider → RangeSlider
  | .ok s => s
  | .error s => s

/-- The ordering invariant together with the geometric fact
`slider_x_start ≤ slider_x_end` (true of every construction with
`width ≥ 2 * HEAD_RADIUS` and preserved by every operation, since no
operation writes the two geometry fields). -/
def InvG (s : RangeSlider) : Prop :=
  s.slider_x_start ≤ s.slider_x_end ∧ ordering_inv s

/-- The constant question-mark formatter from the editability-gate
example. -/
def qmark : ℚ → String := fun _ => "?"

/-- A concrete widget state with the default codec: domain `[0, 10]`,
selection `[2, 8]`, default geometry (`width = 400`), entry texts and head
positions consistent with the values. -/
def c2s : RangeSlider :=
  { value_min := 0, value_max := 10, value_in := 2, value_out := 8,
    slider_x_start := 10, slider_x_end := 390,
    value_display := fmt2, inverse_display := some qparse,
    entry_in_text := "2.00", entry_out_text := "8.00",
    head_in_x := 86, head_out_x := 314,
    selected_head := .noneSel, user_moved_sliders_since_last_check := false }

/-- A concrete widget state for the editability-gate counterexample:
domain `[0, 10]`, default codec installed. -/
def c5s : RangeSlider :=
  { value_min := 0, value_max := 10, value_in := 0, value_out := 10,
    slider_x_start := 10, slider_x_end := 390,
    value_display := fmt2, inverse_display := some qparse,
    entry_in_text := "0.00", entry_out_text := "10.00",
    head_in_x := 10, head_out_x := 390,
    selected_head := .noneSel, user_moved_sliders_since_last_check := false }

/-- The entry-push scenario of the spec: `min=0, max=10, value_in=2,
value_out=8`, default codec. -/
def c6s : RangeSlider :=
  { value_min := 0, value_max := 10, value_in := 2, value_out := 8,
    slider_x_start := 10, slider_x_end := 390,
    value_display := fmt2, inverse_display := some qparse,
    entry_in_text := "2.00", entry_out_text := "8.00",
    head_in_x := 86, head_out_x := 314,
    selected_head := .noneSel, user_moved_sliders_since_last_check := false }

/-- A concrete state whose prior hit-test was ambiguous (`selected_head`
is the `True` of the source): both heads collapsed at the full range. -/
def c7s : RangeSlider :=
  { value_min := 0, value_max := 10, value_in := 0, value_out := 10,
    slider_x_start := 10, slider_x_end := 390,
    value_display := fmt2, inverse_display := some qparse,
    entry_in_text := "0.00", entry_out_text := "10.00",
    head_in_x := 10, head_out_x := 390,
    selected_head := .both, user_moved_sliders_since_last_check := false }

/-- A concrete state used by the dirty-flag claim: clean flag, domain
`[0, 10]`, full selection. -/
def c8w : RangeSlider :=
  { value_min := 0, value_max := 10, value_in := 0, value_out := 10,
    slider_x_start := 10, slider_x_end := 390,
    value_display := fmt2, inverse_display := some qparse,
    entry_in_text := "0.00", entry_out_text := "10.00",
    head_in_x := 10, head_out_x := 390,
    selected_head := .noneSel, user_moved_sliders_since_last_check := false }

/-- The reconfiguration scenario of the spec: prior state `value_in = 150`,
`value_out = 200` in domain `[0, 200]`. -/
def c9s : RangeSlider :=
  { value_min := 0, value_max := 200, value_in := 150, value_out := 200,
    slider_x_start := 10, slider_x_end := 390,
    value_display := fmt2, inverse_display := some qparse,
    entry_in_text := "150.00", entry_out_text := "200.00",
    head_in_x := 295, head_out_x := 390,
    selected_head := .noneSel, user_moved_sliders_since_last_check := false }

/-- A state whose values lie strictly inside the smaller domain `[0, 100]`
it is about to be reconfigured to: `value_in = 50`, `value_out = 60` in
domain `[0, 200]`. -/
def c10s : RangeSlider :=
  { value_min := 0, value_max := 200, value_in := 50, value_out := 60,
    slider_x_start := 10, slider_x_end := 390,
    value_display := fmt2, inverse_display := some qparse,
    entry_in_text := "50.00", entry_out_text := "60.00",
    head_in_x := 105, head_out_x := 124,
    selected_head := .noneSel, user_moved_sliders_since_last_check := false }

/-- A concrete widget state for the round-trip claim: domain `[0, 10]`,
default geometry. -/
def c4w : RangeSlider :=
  { value_min := 0, value_max := 10, value_in := 0, value_out := 10,
    slider_x_start := 10, slider_x_end := 390,
    value_display := fmt2, inverse_display := some qparse,
    entry_in_text := "0.00", entry_out_text := "10.00",
    head_in_x := 10, head_out_x := 390,
    selected_head := .noneSel, user_moved_sliders_since_last_check := false }

/-- A degenerate-domain widget state (`value_min = value_max = 3`) with
nondegenerate geometry. -/
def c3w : RangeSlider :=
  { value_min := 3, value_max := 3, value_in := 3, value_out := 3,
    slider_x_start := 10, slider_x_end := 390,
    value_display := fmt2, inverse_display := some qparse,
    entry_in_text := "3.00", entry_out_text := "3.00",
    head_in_x := 10, head_out_x := 390,
    selected_head := .noneSel, user_moved_sliders_since_last_check := false }

/-! ### Evaluation lemmas for the concrete codecs -/

theorem qparse_qmark : qparse "?" = none := by decide

theorem qparse_one : qparse "1" = some 1 := by decide

theorem qparse_five : qparse "5" = some 5 := by decide

theorem qparse_nine : qparse "9" = some 9 := by decide

theorem qparse_tilde : qparse "~" = none := by decide

theorem qparse_fmt0_zero : qparse (fmt0 0) = some 0 := by decide

theorem qparse_fmt0_ten : qparse (fmt0 10) = some 10 := by decide

theorem fmt0_five : fmt0 5 = "5" := by decide

theorem fmt2_two : fmt2 2 = "2.00" := by decide

/-! ### Algebra of the two conversion closures -/

theorem pos_to_value_fn_vtp (value_min value_max xs xe v : ℚ)
    (h1 : value_max - value_min ≠ 0) (h2 : xe - xs ≠ 0) :
    pos_to_value_fn value_min value_max xs xe (value_to_pos_fn value_min value_max xs xe v)
      = v := by
  unfold pos_to_value_fn value_to_pos_fn
  field_simp
  ring

theorem value_to_pos_fn_ptv (value_min value_max xs xe p : ℚ)
    (h1 : value_max - value_min ≠ 0) (h2 : xe - xs ≠ 0) :
    value_to_pos_fn value_min value_max xs xe (pos_to_value_fn value_min value_max xs xe p)
      = p := by
  unfold pos_to_value_fn value_to_pos_fn
  field_simp
  ring

theorem pos_to_value_fn_mono (value_min value_max xs xe p q : ℚ)
    (hv : value_min ≤ value_max) (hx : xs < xe) (hpq : p ≤ q) :
    pos_to_value_fn value_min value_max xs xe p ≤ pos_to_value_fn value_min value_max xs xe q := by
  unfold pos_to_value_fn
  have hd : (0 : ℚ) < xe - xs := by linarith
  have h : (value_max - value_min) * (p - xs) ≤ (value_max - value_min) * (q - xs) :=
    mul_le_mul_of_nonneg_left (by linarith) (by linarith)
  have := (div_le_div_iff_of_pos_right hd).mpr h
  linarith

theorem pos_to_value_fn_start (value_min value_max xs xe : ℚ) :
    pos_to_value_fn value_min value_max xs xe xs = value_min := by
  unfold pos_to_value_fn
  simp

theorem pos_to_value_fn_end (value_min value_max xs xe : ℚ) (h2 : xe - xs ≠ 0) :
    pos_to_value_fn value_min value_max xs xe xe = value_max := by
  unfold pos_to_value_fn
  field_simp

theorem value_to_pos_fn_ge (value_min value_max xs xe v : ℚ)
    (hv : value_min < value_max) (hx : xs ≤ xe) (h : value_min ≤ v) :
    xs ≤ value_to_pos_fn value_min value_max xs xe v := by
  unfold value_to_pos_fn
  have : (0 : ℚ) ≤ (xe - xs) * (v - value_min) / (value_max - value_min) :=
    div_nonneg (mul_nonneg (by linarith) (by linarith)) (by linarith)
  linarith

theorem value_to_pos_fn_le (value_min value_max xs xe v : ℚ)
    (hv : value_min < value_max) (hx : xs ≤ xe) (h : v ≤ value_max) :
    value_to_pos_fn value_min value_max xs xe v ≤ xe := by
  unfold value_to_pos_fn
  have hd : (0 : ℚ) < value_max - value_min := by linarith
  have h1 : (xe - xs) * (v - value_min) ≤ (xe - xs) * (value_max - value_min) :=
    mul_le_mul_of_nonneg_left (by linarith) (by linarith)
  have h2 := (div_le_div_iff_of_pos_right hd).mpr h1
  have h3 : (xe - xs) * (value_max - value_min) / (value_max - value_min) = xe - xs := by
    field_simp
  linarith

/-! ### Inversion of the `Option`-guarded closures -/

theorem value_to_pos_some (s : RangeSlider) (v p : ℚ) (h : value_to_pos s v = some p) :
    s.value_max - s.value_min ≠ 0 ∧
      p = value_to_pos_fn s.value_min s.value_max s.slider_x_start s.slider_x_end v := by
  unfold value_to_pos at h
  split at h
  · exact absurd h (by simp)
  · exact ⟨by assumption, (Option.some.inj h).symm⟩

theorem pos_to_value_some (s : RangeSlider) (p v : ℚ) (h : pos_to_value s p = some v) :
    s.slider_x_end - s.slider_x_start ≠ 0 ∧
      v = pos_to_value_fn s.value_min s.value_max s.slider_x_start s.slider_x_end p := by
  unfold pos_to_value at h
  split at h
  · exact absurd h (by simp)
  · exact ⟨by assumption, (Option.some.inj h).symm⟩

theorem value_to_pos_none (s : RangeSlider) (v : ℚ) (h : value_to_pos s v = none) :
    s.value_max - s.value_min = 0 := by
  unfold value_to_pos at h
  split at h
  · assumption
  · exact absurd h (by simp)

/-- `change_display` never touches the domain, the two values, or the
geometry, whichever branch returns normally. -/
theorem change_display_ok_fields (s s2 : RangeSlider) (vd : ℚ → String)
    (ivd : Option (String → Option ℚ)) (h : change_display s vd ivd = .ok s2) :
    s2.value_min = s.value_min ∧ s2.value_max = s.value_max ∧ s2.value_in = s.value_in ∧
      s2.value_out = s.value_out ∧ s2.slider_x_start = s.slider_x_start ∧
      s2.slider_x_end = s.slider_x_end := by
  unfold change_display at h
  cases ivd with
  | none =>
    simp only [Except.ok.injEq] at h
    subst h
    simp [set_entry_texts]
  | some pr =>
    simp only [] at h
    split at h
    · exact absurd h (by simp)
    · split at h
      · simp only [Except.ok.injEq] at h
        subst h
        simp [set_entry_texts]
      · split at h
        · exact absurd h (by simp)
        · split at h <;>
          · simp only [Except.ok.injEq] at h
            subst h
            simp [set_entry_texts]

/-! ### Preservation of the ordering invariant -/

theorem clicked_move_invG (s : RangeSlider) (x : ℚ) (h : InvG s) :
    InvG (clicked_move s x) := by
  obtain ⟨hx, h1, h2, h3⟩ := h
  have hvv : s.value_min ≤ s.value_max := le_trans h1 (le_trans h2 h3)
  cases hsel : s.selected_head with
  | noneSel =>
    simp only [clicked_move, hsel]
    exact ⟨hx, h1, h2, h3⟩
  | headIn =>
    simp only [clicked_move, hsel]
    split
    · exact ⟨hx, h1, h2, h3⟩
    · rename_i pos_out hvtp
      split
      · exact ⟨hx, h1, h2, h3⟩
      · rename_i bar hptv
        obtain ⟨hden, hpo2⟩ := value_to_pos_some s s.value_out pos_out hvtp
        obtain ⟨hxden, hbar2⟩ := pos_to_value_some s _ bar hptv
        have hvlt : s.value_min < s.value_max :=
          lt_of_le_of_ne hvv (fun e => hden (sub_eq_zero.mpr e.symm))
        have hxlt : s.slider_x_start < s.slider_x_end :=
          lt_of_le_of_ne hx (fun e => hxden (sub_eq_zero.mpr e.symm))
        have hcx0 : s.slider_x_start ≤ min s.slider_x_end (max s.slider_x_start x) :=
          le_min hx (le_max_left _ _)
        have hpo_ge : s.slider_x_start ≤ pos_out := by
          rw [hpo2]
          exact value_to_pos_fn_ge _ _ _ _ _ hvlt hx (le_trans h1 h2)
        have hb1 : s.value_min ≤ bar := by
          have hm := pos_to_value_fn_mono s.value_min s.value_max s.slider_x_start
            s.slider_x_end _ _ hvv hxlt (le_min hpo_ge hcx0)
          rw [pos_to_value_fn_start] at hm
          rw [hbar2]
          exact hm
        have hb2 : bar ≤ s.value_out := by
          have hm := pos_to_value_fn_mono s.value_min s.value_max s.slider_x_start
            s.slider_x_end _ _ hvv hxlt
            (min_le_left pos_out (min s.slider_x_end (max s.slider_x_start x)))
          have he : pos_to_value_fn s.value_min s.value_max s.slider_x_start s.slider_x_end
              pos_out = s.value_out := by
            rw [hpo2]
            exact pos_to_value_fn_vtp _ _ _ _ _ hden hxden
          rw [hbar2]
          rw [he] at hm
          exact hm
        exact ⟨hx, hb1, hb2, h3⟩
  | headOut =>
    simp only [clicked_move, hsel]
    split
    · exact ⟨hx, h1, h2, h3⟩
    · rename_i pos_in hvtp
      split
      · exact ⟨hx, h1, h2, h3⟩
      · rename_i bar hptv
        obtain ⟨hden, hpi2⟩ := value_to_pos_some s s.value_in pos_in hvtp
        obtain ⟨hxden, hbar2⟩ := pos_to_value_some s _ bar hptv
        have hvlt : s.value_min < s.value_max :=
          lt_of_le_of_ne hvv (fun e => hden (sub_eq_zero.mpr e.symm))
        have hxlt : s.slider_x_start < s.slider_x_end :=
          lt_of_le_of_ne hx (fun e => hxden (sub_eq_zero.mpr e.symm))
        have hcx0 : min s.slider_x_end (max s.slider_x_start x) ≤ s.slider_x_end :=
          min_le_left _ _
        have hpi_le : pos_in ≤ s.slider_x_end := by
          rw [hpi2]
          exact value_to_pos_fn_le _ _ _ _ _ hvlt hx (le_trans h2 h3)
        have hb2 : bar ≤ s.value_max := by
          have hm := pos_to_value_fn_mono s.value_min s.value_max s.slider_x_start
            s.slider_x_end _ _ hvv hxlt
            (max_le hpi_le hcx0)
          rw [pos_to_value_fn_end _ _ _ _ hxden] at hm
          rw [hbar2]
          exact hm
        have hb1 : s.value_in ≤ bar := by
          have hm := pos_to_value_fn_mono s.value_min s.value_max s.slider_x_start
            s.slider_x_end _ _ hvv hxlt
            (le_max_left pos_in (min s.slider_x_end (max s.slider_x_start x)))
          have he : pos_to_value_fn s.value_min s.value_max s.slider_x_start s.slider_x_end
              pos_in = s.value_in := by
            rw [hpi2]
            exact pos_to_value_fn_vtp _ _ _ _ _ hden hxden
          rw [he] at hm
          rw [hbar2]
          exact hm
        exact ⟨hx, h1, hb1, hb2⟩
  | both =>
    simp only [clicked_move, hsel]
    split
    · exact ⟨hx, h1, h2, h3⟩
    · split <;> exact ⟨hx, h1, h2, h3⟩

theorem commit_entry_in_invG (s : RangeSlider) (h : InvG s) :
    InvG (commit_entry_in s) := by
  obtain ⟨hx, h1, h2, h3⟩ := h
  have hvv : s.value_min ≤ s.value_max := le_trans h1 (le_trans h2 h3)
  cases hiv : s.inverse_display with
  | none =>
    simp only [commit_entry_in, hiv]
    exact ⟨hx, h1, h2, h3⟩
  | some pr =>
    simp only [commit_entry_in, hiv]
    split
    · exact ⟨hx, h1, h2, h3⟩
    · rename_i proposed hp
      split
      · exact ⟨hx, h1, h2, h3⟩
      · have htv1 : s.value_min ≤ min (max s.value_min proposed) s.value_max :=
          le_min (le_max_left _ _) hvv
        have htv2 : min (max s.value_min proposed) s.value_max ≤ s.value_max :=
          min_le_right _ _
        split
        · rename_i hpush
          split
          · exact ⟨hx, h1, h2, h3⟩
          · split
            · exact ⟨hx, h1, h2, h3⟩
            · exact ⟨hx, htv1, le_refl _, htv2⟩
        · rename_i hpush
          split
          · exact ⟨hx, h1, h2, h3⟩
          · exact ⟨hx, htv1, not_lt.mp hpush, h3⟩

theorem commit_entry_out_invG (s : RangeSlider) (h : InvG s) :
    InvG (commit_entry_out s) := by
  obtain ⟨hx, h1, h2, h3⟩ := h
  have hvv : s.value_min ≤ s.value_max := le_trans h1 (le_trans h2 h3)
  cases hiv : s.inverse_display with
  | none =>
    simp only [commit_entry_out, hiv]
    exact ⟨hx, h1, h2, h3⟩
  | some pr =>
    simp only [commit_entry_out, hiv]
    split
    · exact ⟨hx, h1, h2, h3⟩
    · rename_i proposed hp
      split
      · exact ⟨hx, h1, h2, h3⟩
      · have htv1 : s.value_min ≤ min (max s.value_min proposed) s.value_max :=
          le_min (le_max_left _ _) hvv
        have htv2 : min (max s.value_min proposed) s.value_max ≤ s.value_max :=
          min_le_right _ _
        split
        · rename_i hpush
          split
          · exact ⟨hx, h1, h2, h3⟩
          · split
            · exact ⟨hx, h1, h2, h3⟩
            · exact ⟨hx, htv1, le_refl _, htv2⟩
        · rename_i hpush
          split
          · exact ⟨hx, h1, h2, h3⟩
          · exact ⟨hx, h1, not_lt.mp hpush, htv2⟩

theorem apply_op_invG (s : RangeSlider) (op : Op) (h : InvG s) : InvG (apply_op s op) := by
  cases op with
  | dragIn x => exact clicked_move_invG _ x h
  | dragOut x => exact clicked_move_invG _ x h
  | dragBoth x => exact clicked_move_invG _ x h
  | entryIn t => exact commit_entry_in_invG _ h
  | entryOut t => exact commit_entry_out_invG _ h

theorem foldl_invG (ops : List Op) (s : RangeSlider) (h : InvG s) :
    InvG (ops.foldl apply_op s) := by
  induction ops generalizing s with
  | nil => exact h
  | cons op rest ih => exact ih _ (apply_op_invG _ _ h)

/-! ### C1: the ordering invariant under drags and entry commits -/

/-- C1 (amended): starting from a freshly constructed widget with
`value_min ≤ value_max` whose width is at least `2 * HEAD_RADIUS` (so that
`slider_x_start ≤ slider_x_end`), every finite sequence of drag operations
(B1-motion events with any prior hit-test result) and committed text-entry
edits leaves the state satisfying
`value_min ≤ value_in ≤ value_out ≤ value_max`; quantifying over all
sequences covers the state after every operation of a longer sequence. -/
theorem c1_ordering_invariant (value_min value_max width : ℚ) (vd : ℚ → String)
    (ivd : Option (String → Option ℚ)) (s0 : RangeSlider) (ops : List Op)
    (hok : fresh value_min value_max width vd ivd = .ok s0)
    (hmm : value_min ≤ value_max) (hw : 2 * HEAD_RADIUS ≤ width) :
    ordering_inv (ops.foldl apply_op s0) := by
  unfold fresh at hok
  obtain ⟨e1, e2, e3, e4, e5, e6⟩ := change_display_ok_fields _ _ _ _ hok
  have hfr1 : (fresh_raw value_min value_max width vd ivd).value_min = value_min := by
    simp [fresh_raw, change_min_max]
  have hfr2 : (fresh_raw value_min value_max width vd ivd).value_max = value_max := by
    simp [fresh_raw, change_min_max]
  have hfr3 : (fresh_raw value_min value_max width vd ivd).value_in = value_min := by
    simp [fresh_raw, change_min_max]
  have hfr4 : (fresh_raw value_min value_max width vd ivd).value_out = value_max := by
    simp [fresh_raw, change_min_max]
  have hfr5 : (fresh_raw value_min value_max width vd ivd).slider_x_start = HEAD_RADIUS := by
    simp [fresh_raw, change_min_max]
  have hfr6 : (fresh_raw value_min value_max width vd ivd).slider_x_end
      = width - HEAD_RADIUS := by
    simp [fresh_raw, change_min_max]
  have hInv : InvG s0 := by
    refine ⟨?_, ?_, ?_, ?_⟩
    · rw [e5, e6, hfr5, hfr6]
      unfold HEAD_RADIUS at hw ⊢
      linarith
    · rw [e1, hfr1, e3, hfr3]
    · rw [e3, hfr3, e4, hfr4]
      exact hmm
    · rw [e4, hfr4, e2, hfr2]
  exact (foldl_invG ops s0 hInv).2

/-- C1 witness: a default-geometry widget over `[0, 1]` keeps the ordering
invariant under a drag of the `in` head. -/
theorem c1_ordering_invariant_witness :
    ordering_inv ([Op.dragIn 100].foldl apply_op (unwrapOk (fresh 0 1 400 fmt2 none))) :=
  c1_ordering_invariant 0 1 400 fmt2 none _ [Op.dragIn 100] rfl (by norm_num)
    (by norm_num [HEAD_RADIUS])

/-- C1 counterexample: the claim as stated quantifies over every freshly
constructed widget with `value_min ≤ value_max`, but a widget of width 10
(less than `2 * HEAD_RADIUS`, accepted by the constructor) has
`slider_x_start = 10 > 0 = slider_x_end`, and the inverted pixel geometry
breaks the invariant: over `[0, 10]` with the integer display codec
(round-trip editable, so entry commits are installed), committing `"5"` in
the `out` field and then dragging — every hover on the 10-pixel canvas hits
the bounding boxes of both heads, so the hit-test yields the ambiguous `True`,
which the next motion resolves to the `in` head — ends with
`value_in = 10 > 5 = value_out`, violating `value_in ≤ value_out`. -/
theorem c1_counterexample :
    (okState (fresh 0 10 10 fmt0 (some qparse))).map
      (fun s0 =>
        let sf := [Op.entryOut "5", Op.dragBoth 0, Op.dragIn 0].foldl apply_op s0
        (sf.value_in, sf.value_out)) = some (10, 5) ∧ ¬ ((10 : ℚ) ≤ 5) := by
  constructor
  · norm_num [fresh, fresh_raw, change_min_max, change_display, set_entry_texts,
      HEAD_RADIUS, okState, qparse_fmt0_zero, qparse_fmt0_ten, qparse_five, fmt0_five,
      apply_op, clicked_move, commit_entry_out, value_to_pos, pos_to_value,
      value_to_pos_fn, pos_to_value_fn, min_def, max_def]
  · norm_num

/-! ### C2: parse failure during an entry commit -/

/-- C2 (amended): when the parser signals an error on the committed text,
the handler leaves the whole state unchanged — `value_in`, `value_out` and
the dirty flag in particular — but it does not revert the field text: the
field keeps showing the typed text (the state equality below fixes
`entry_in_text` at the typed `t`).  The `ValueError` propagates out of the
handler of the widget into the callback machinery of the toolkit rather than being
caught; it is not delivered to host code. -/
theorem c2_parse_failure_no_change (s : RangeSlider) (pr : String → Option ℚ) (t : String)
    (hpr : s.inverse_display = some pr) (ht : pr t = none) :
    commit_entry_in { s with entry_in_text := t } = { s with entry_in_text := t } ∧
    commit_entry_out { s with entry_out_text := t } = { s with entry_out_text := t } := by
  constructor
  · simp [commit_entry_in, hpr, ht]
  · simp [commit_entry_out, hpr, ht]

/-- C2 witness: committing the unparseable text `"~"` leaves the concrete
state untouched. -/
theorem c2_parse_failure_no_change_witness :
    commit_entry_in { c2s with entry_in_text := "~" } = { c2s with entry_in_text := "~" } ∧
    commit_entry_out { c2s with entry_out_text := "~" } = { c2s with entry_out_text := "~" } :=
  c2_parse_failure_no_change c2s qparse "~" rfl (by decide)

/-- C2 counterexample: committing `"?"` in the `in` field of a widget at
`value_in = 2` (default codec) leaves the values and the dirty flag
unchanged, but the field still shows `"?"` — not the formatted current
value `"2.00"` the claim says it reverts to. -/
theorem c2_counterexample :
    (commit_entry_in { c2s with entry_in_text := "?" }).value_in = 2 ∧
    (commit_entry_in { c2s with entry_in_text := "?" }).value_out = 8 ∧
    (commit_entry_in { c2s with entry_in_text := "?" }).user_moved_sliders_since_last_check
      = false ∧
    (commit_entry_in { c2s with entry_in_text := "?" }).entry_in_text = "?" ∧
    (commit_entry_in { c2s with entry_in_text := "?" }).value_display
      ((commit_entry_in { c2s with entry_in_text := "?" }).value_in) = "2.00" ∧
    "?" ≠ "2.00" := by
  refine ⟨?_, ?_, ?_, ?_, ?_, by decide⟩ <;>
    simp [commit_entry_in, c2s, qparse_qmark, fmt2_two]

/-! ### C3: the degenerate domain -/

/-- C3 counterexample: on a freshly constructed widget with
`value_min = value_max = 0` (construction succeeds), `value_to_pos` raises
`ZeroDivisionError` (embedded `none`) instead of mapping the value to
`slider_x_start = 10` as the claim states. -/
theorem c3_counterexample :
    value_to_pos (unwrapOk (fresh 0 0 400 fmt2 none)) 5 = none ∧
    (unwrapOk (fresh 0 0 400 fmt2 none)).slider_x_start = 10 := by
  constructor <;>
    norm_num [fresh, fresh_raw, change_min_max, change_display, set_entry_texts,
      HEAD_RADIUS, unwrapOk, value_to_pos]

/-- C3 (amended): when the domain is degenerate (`value_max = value_min`),
`value_to_pos` is unguarded — it divides by the zero value span and raises
for every value — while `pos_to_value` never divides by the value span and
returns `value_min` for every position (the slope factor
`value_max - value_min` is zero), so only the position-to-value direction
degrades to the constant `value_min`. -/
theorem c3_degenerate_domain (s : RangeSlider) (v p : ℚ)
    (hdeg : s.value_max = s.value_min)
    (hx : s.slider_x_end - s.slider_x_start ≠ 0) :
    value_to_pos s v = none ∧ pos_to_value s p = some s.value_min := by
  constructor
  · simp [value_to_pos, hdeg]
  · simp [pos_to_value, hx, pos_to_value_fn, hdeg]

/-- C3 witness: the degenerate widget over `[3, 3]`. -/
theorem c3_degenerate_domain_witness :
    value_to_pos c3w 7 = none ∧ pos_to_value c3w 123 = some c3w.value_min :=
  c3_degenerate_domain c3w 7 123 (by decide) (by norm_num [c3w])

/-! ### C4: the round trip of the two conversion closures -/

/-- C4: with a nondegenerate domain and the pixel span of the widget, the two
conversion closures are mutually inverse: `pos_to_value (value_to_pos v)`
returns `v` for every value in `[value_min, value_max]`, and
`value_to_pos (pos_to_value p)` returns `p` for every position in
`[slider_x_start, slider_x_end]` — exactly, since the model computes with
rational arithmetic. -/
theorem c4_value_mapper_roundtrip (s : RangeSlider) (v p : ℚ)
    (hmm : s.value_min < s.value_max) (hx : s.slider_x_start < s.slider_x_end)
    (hv1 : s.value_min ≤ v) (hv2 : v ≤ s.value_max)
    (hp1 : s.slider_x_start ≤ p) (hp2 : p ≤ s.slider_x_end) :
    (value_to_pos s v).bind (pos_to_value s) = some v ∧
    (pos_to_value s p).bind (value_to_pos s) = some p := by
  have hden : s.value_max - s.value_min ≠ 0 := sub_ne_zero.mpr (ne_of_gt hmm)
  have hxden : s.slider_x_end - s.slider_x_start ≠ 0 := sub_ne_zero.mpr (ne_of_gt hx)
  constructor
  · unfold value_to_pos pos_to_value
    rw [if_neg hden]
    simp only [Option.some_bind]
    rw [if_neg hxden, pos_to_value_fn_vtp _ _ _ _ _ hden hxden]
  · unfold value_to_pos pos_to_value
    rw [if_neg hxden]
    simp only [Option.some_bind]
    rw [if_neg hden, value_to_pos_fn_ptv _ _ _ _ _ hden hxden]

/-- C4 witness: the default-geometry widget over `[0, 10]`, at value 3 and
position 100. -/
theorem c4_value_mapper_roundtrip_witness :
    (value_to_pos c4w 3).bind (pos_to_value c4w) = some 3 ∧
    (pos_to_value c4w 100).bind (value_to_pos c4w) = some 100 :=
  c4_value_mapper_roundtrip c4w 3 100 (by decide) (by decide) (by decide) (by decide)
    (by decide) (by decide)

/-! ### C5: the codec editability gate -/

/-- C5 counterexample: `change_display` with the constant `"?"` formatter
and the default float parser does not yield a non-editable widget — the
round-trip gate itself raises (the `ValueError` of the parser is uncaught,
embedded `.error`), and the state at the raise point still has the new
parser installed (`inverse_display.isSome`), i.e. free-text editing was
left enabled. -/
theorem c5_counterexample :
    okState (change_display c5s qmark (some qparse)) = none ∧
    (errState (change_display c5s qmark (some qparse))).map
      (fun s2 => s2.inverse_display.isSome) = some true := by
  constructor <;>
    simp [change_display, qmark, qparse_qmark, okState, errState]

/-- C5 (amended): provided both gate applications of the parser return
normally (`pr (vd value_min) = some a`, `pr (vd value_max) = some b`),
`change_display` leaves free-text editing enabled iff
`a = value_min ∧ b = value_max`; with no parser supplied the result is
always non-editable.  (When a gate application raises instead — as the
default float parser does on `"?"` — `change_display` propagates the
exception with the new parser left installed; see the counterexample.) -/
theorem c5_editability_gate (s : RangeSlider) (vd : ℚ → String) (pr : String → Option ℚ)
    (a b : ℚ) (ha : pr (vd s.value_min) = some a) (hb : pr (vd s.value_max) = some b) :
    ((okState (change_display s vd (some pr))).map (fun s2 => s2.inverse_display.isSome)
        = some true ↔ (a = s.value_min ∧ b = s.value_max)) ∧
    (okState (change_display s vd none)).map (fun s2 => s2.inverse_display.isSome)
      = some false := by
  constructor
  · simp only [change_display, ha, hb]
    by_cases h1 : a = s.value_min
    · rw [if_neg (fun hc => hc h1)]
      by_cases h2 : b = s.value_max
      · rw [if_neg (fun hc => hc h2)]
        simp [okState, set_entry_texts, h1, h2]
      · rw [if_pos h2]
        simp [okState, set_entry_texts, h2]
    · rw [if_pos h1]
      simp [okState, set_entry_texts, h1]
  · simp [change_display, okState, set_entry_texts]

/-- C5 witness: the default-geometry widget over `[0, 10]` with the
integer formatter round-trips at both ends, so editing stays enabled; with
no parser it is non-editable. -/
theorem c5_editability_gate_witness :
    (okState (change_display c5s fmt0 (some qparse))).map
      (fun s2 => s2.inverse_display.isSome) = some true ∧
    (okState (change_display c5s fmt0 none)).map
      (fun s2 => s2.inverse_display.isSome) = some false :=
  ⟨(c5_editability_gate c5s fmt0 qparse 0 10 (by decide) (by decide)).1.mpr (by decide),
   (c5_editability_gate c5s fmt0 qparse 0 10 (by decide) (by decide)).2⟩

/-! ### C6: the entry push policy -/

/-- C6: committing text in the `out` field of the scenario of the spec
(`min=0, max=10, value_in=2, value_out=8`) that parses to 1 pushes the
other head: the result is `value_in = 1` and `value_out = 1`, not a
rejected edit; and symmetrically, whenever the committed `in` field
value (clamped into the domain) exceeds `value_out`, both values become
that clamped value. -/
theorem c6_entry_push (s : RangeSlider) (pr : String → Option ℚ) (v : ℚ)
    (hpr : s.inverse_display = some pr) (hv : pr s.entry_in_text = some v)
    (hne : v ≠ s.value_in) (hlt : s.value_min < s.value_max)
    (hcross : s.value_out < min (max s.value_min v) s.value_max) :
    ((commit_entry_in s).value_in = min (max s.value_min v) s.value_max ∧
     (commit_entry_in s).value_out = min (max s.value_min v) s.value_max) ∧
    ((commit_entry_out { c6s with entry_out_text := "1" }).value_in = 1 ∧
     (commit_entry_out { c6s with entry_out_text := "1" }).value_out = 1) := by
  have hden : s.value_max - s.value_min ≠ 0 := sub_ne_zero.mpr (ne_of_gt hlt)
  constructor
  · simp only [commit_entry_in, hpr, hv]
    rw [if_neg hne]
    split
    · split
      · rename_i heq
        exact absurd (value_to_pos_none _ _ heq) hden
      · split
        · rename_i heq
          exact absurd (value_to_pos_none _ _ heq) hden
        · exact ⟨rfl, rfl⟩
    · rename_i hcon
      exact absurd hcross hcon
  · norm_num [commit_entry_out, c6s, qparse_one, value_to_pos, value_to_pos_fn,
      min_def, max_def]

/-- C6 witness: committing `"9"` in the `in` field of the same scenario
pushes `value_out` up to 9. -/
theorem c6_entry_push_witness :
    ((commit_entry_in { c6s with entry_in_text := "9" }).value_in = 9 ∧
     (commit_entry_in { c6s with entry_in_text := "9" }).value_out = 9) ∧
    ((commit_entry_out { c6s with entry_out_text := "1" }).value_in = 1 ∧
     (commit_entry_out { c6s with entry_out_text := "1" }).value_out = 1) := by
  have h := c6_entry_push { c6s with entry_in_text := "9" } qparse 9 rfl (by decide)
    (by decide) (by decide) (by decide)
  refine ⟨⟨?_, ?_⟩, h.2⟩
  · rw [h.1.1]
    norm_num [c6s, min_def, max_def]
  · rw [h.1.2]
    norm_num [c6s, min_def, max_def]

/-! ### C7: resolving an ambiguous hit during a drag -/

/-- C7 counterexample: on a B1-motion at x = 200 from an ambiguous
hit-test (`selected_head` is the `True` of the source, both heads collapsed on
`[0, 10]`), the controller selects the `in` head (200 is not strictly
beyond the position of the `out` head 390) but does NOT write the converted
value on that same event: `pos_to_value` at the clamped position is 5,
yet `value_in` stays 0 and the displayed text stays `"0.00"` — refuting
the second half of the claim. -/
theorem c7_counterexample :
    (clicked_move c7s 200).selected_head = SelectedHead.headIn ∧
    (clicked_move c7s 200).value_in = 0 ∧
    (clicked_move c7s 200).entry_in_text = "0.00" ∧
    pos_to_value c7s 200 = some 5 ∧ (0 : ℚ) ≠ 5 := by
  refine ⟨?_, ?_, ?_, ?_, by norm_num⟩ <;>
    norm_num [clicked_move, c7s, value_to_pos, pos_to_value, value_to_pos_fn,
      pos_to_value_fn, min_def, max_def]

/-- C7 (amended): on a B1-motion from an ambiguous hit-test, the
controller selects the `out` head iff the clamped pointer x strictly
exceeds `value_to_pos(value_out)` (else the `in` head), repositions only
the selected head to the clamped x and sets the dirty flag; it writes no
value and updates no displayed text on that event (those happen on
subsequent motion events, which find the head selected). -/
theorem c7_ambiguous_resolution (s : RangeSlider) (x : ℚ)
    (hsel : s.selected_head = SelectedHead.both)
    (hden : s.value_max - s.value_min ≠ 0) :
    ((clicked_move s x).selected_head = SelectedHead.headOut ↔
      value_to_pos_fn s.value_min s.value_max s.slider_x_start s.slider_x_end s.value_out
        < min s.slider_x_end (max s.slider_x_start x)) ∧
    (clicked_move s x).value_in = s.value_in ∧
    (clicked_move s x).value_out = s.value_out ∧
    (clicked_move s x).entry_in_text = s.entry_in_text ∧
    (clicked_move s x).entry_out_text = s.entry_out_text ∧
    (clicked_move s x).user_moved_sliders_since_last_check = true ∧
    (value_to_pos_fn s.value_min s.value_max s.slider_x_start s.slider_x_end s.value_out
        < min s.slider_x_end (max s.slider_x_start x) →
      (clicked_move s x).head_out_x = min s.slider_x_end (max s.slider_x_start x)) ∧
    (¬ value_to_pos_fn s.value_min s.value_max s.slider_x_start s.slider_x_end s.value_out
        < min s.slider_x_end (max s.slider_x_start x) →
      (clicked_move s x).head_in_x = min s.slider_x_end (max s.slider_x_start x)) := by
  simp only [clicked_move, hsel]
  simp only [value_to_pos, if_neg hden]
  by_cases hc : value_to_pos_fn s.value_min s.value_max s.slider_x_start s.slider_x_end
      s.value_out < min s.slider_x_end (max s.slider_x_start x)
  · rw [if_pos hc]
    simp [hc]
  · rw [if_neg hc]
    simp [hc]

/-- C7 witness: the collapsed-heads widget, pointer at x = 200. -/
theorem c7_ambiguous_resolution_witness :
    (clicked_move c7s 200).value_in = c7s.value_in ∧
    (clicked_move c7s 200).user_moved_sliders_since_last_check = true :=
  ⟨(c7_ambiguous_resolution c7s 200 (by decide) (by norm_num [c7s])).2.1,
   (c7_ambiguous_resolution c7s 200 (by decide) (by norm_num [c7s])).2.2.2.2.2.1⟩

/-! ### C8: dirty-flag semantics -/

/-- C8: `have_sliders_moved` returns the current flag and resets it to
false (read-and-clear), so a second poll with no user action in between
returns false; a drag with a head selected (nondegenerate domain and
geometry) and an accepted entry edit (parse succeeds, value differs) set
the flag, so the first poll after them returns true; and `change_min_max`
never sets the flag — when the domain actually changes it clears it. -/
theorem c8_dirty_flag (s : RangeSlider) (x vm2 vx2 : ℚ) (reset force : Bool)
    (pr : String → Option ℚ) (v : ℚ) :
    have_sliders_moved s = (s.user_moved_sliders_since_last_check,
      { s with user_moved_sliders_since_last_check := false }) ∧
    (have_sliders_moved (have_sliders_moved s).2).1 = false ∧
    (s.value_min < s.value_max → s.slider_x_start ≠ s.slider_x_end →
      (have_sliders_moved (clicked_move { s with selected_head := SelectedHead.headIn } x)).1
        = true) ∧
    (s.inverse_display = some pr → pr s.entry_in_text = some v → v ≠ s.value_in →
      (commit_entry_in s).user_moved_sliders_since_last_check = true) ∧
    ((change_min_max s vm2 vx2 reset force).user_moved_sliders_since_last_check = true →
      s.user_moved_sliders_since_last_check = true) ∧
    (s.value_min ≠ vm2 →
      (change_min_max s vm2 vx2 reset force).user_moved_sliders_since_last_check = false) := by
  refine ⟨rfl, rfl, ?_, ?_, ?_, ?_⟩
  · intro h1 h2
    have hden : s.value_max - s.value_min ≠ 0 := sub_ne_zero.mpr (ne_of_gt h1)
    have hxden : s.slider_x_end - s.slider_x_start ≠ 0 := sub_ne_zero.mpr (Ne.symm h2)
    simp only [clicked_move]
    simp only [value_to_pos, pos_to_value, if_neg hden, if_neg hxden]
    rfl
  · intro hpr hv hne
    simp only [commit_entry_in, hpr, hv]
    rw [if_neg hne]
    split
    · split
      · rfl
      · split
        · rfl
        · rfl
    · split
      · rfl
      · rfl
  · intro h
    unfold change_min_max at h
    split at h
    · exact absurd h (by simp)
    · exact h
  · intro h
    unfold change_min_max
    rw [if_pos (Or.inl h)]

/-- C8 witness: on the concrete clean state, a drag makes the next poll
return true, and an actual domain change leaves the flag cleared. -/
theorem c8_dirty_flag_witness :
    (have_sliders_moved
        (clicked_move { c8w with selected_head := SelectedHead.headIn } 100)).1 = true ∧
    (change_min_max c8w 5 10 true false).user_moved_sliders_since_last_check = false :=
  ⟨(c8_dirty_flag c8w 100 5 10 true false qparse 0).2.2.1 (by decide) (by decide),
   (c8_dirty_flag c8w 100 5 10 true false qparse 0).2.2.2.2.2 (by decide)⟩

/-! ### C9: reconfiguration postcondition -/

/-- C9: when `change_min_max` fires (domain differs or `force`), with
`reset = true` it sets `value_in = value_min` and `value_out = value_max`;
with `reset = false` it clamps each value into the new domain, and if the
prior state was ordered the result is still ordered; in particular from
`value_in = 150, value_out = 200`, `change_min_max 0 100` with
`reset = false` yields `value_in = 100 = value_out`. -/
theorem c9_reconfiguration (s : RangeSlider) (vm2 vx2 : ℚ) (force : Bool)
    (hfire : s.value_min ≠ vm2 ∨ s.value_max ≠ vx2 ∨ force = true)
    (hmm : vm2 ≤ vx2) :
    (change_min_max s vm2 vx2 true force).value_in = vm2 ∧
    (change_min_max s vm2 vx2 true force).value_out = vx2 ∧
    (change_min_max s vm2 vx2 false force).value_in = min (max s.value_in vm2) vx2 ∧
    (change_min_max s vm2 vx2 false force).value_out = max (min s.value_out vx2) vm2 ∧
    (s.value_in ≤ s.value_out →
      (change_min_max s vm2 vx2 false force).value_in
        ≤ (change_min_max s vm2 vx2 false force).value_out) ∧
    ((change_min_max c9s 0 100 false false).value_in = 100 ∧
     (change_min_max c9s 0 100 false false).value_out = 100) := by
  have hmain : ∀ r : Bool, change_min_max s vm2 vx2 r force =
      { s with
        value_min := vm2, value_max := vx2,
        value_in := if r then vm2 else min (max s.value_in vm2) vx2,
        value_out := if r then vx2 else max (min s.value_out vx2) vm2,
        head_in_x := s.slider_x_start, head_out_x := s.slider_x_end,
        user_moved_sliders_since_last_check := false } := by
    intro r
    unfold change_min_max
    rw [if_pos hfire]
  have horder : s.value_in ≤ s.value_out →
      min (max s.value_in vm2) vx2 ≤ max (min s.value_out vx2) vm2 := by
    intro hio
    rcases le_total s.value_out vx2 with h | h
    · rw [min_eq_left h]
      calc min (max s.value_in vm2) vx2 ≤ max s.value_in vm2 := min_le_left _ _
        _ ≤ max s.value_out vm2 := max_le_max hio le_rfl
    · rw [min_eq_right h, max_eq_left hmm]
      exact min_le_right _ _
  refine ⟨?_, ?_, ?_, ?_, ?_, ?_⟩
  · rw [hmain true]
    rfl
  · rw [hmain true]
    rfl
  · rw [hmain false]
    rfl
  · rw [hmain false]
    rfl
  · intro hio
    rw [hmain false]
    exact horder hio
  · constructor <;> norm_num [change_min_max, c9s, min_def, max_def]

/-- C9 witness: from the full range over `[0, 10]`, a reset
reconfiguration to `[2, 5]`. -/
theorem c9_reconfiguration_witness :
    (change_min_max c8w 2 5 true false).value_in = 2 ∧
    (change_min_max c8w 2 5 true false).value_out = 5 :=
  ⟨(c9_reconfiguration c8w 2 5 false (Or.inl (by decide)) (by decide)).1,
   (c9_reconfiguration c8w 2 5 false (Or.inl (by decide)) (by decide)).2.1⟩

/-! ### C10: head repositioning on reconfiguration -/

/-- C10: whenever `change_min_max` fires it moves the `in` head to
`slider_x_start` and the `out` head to `slider_x_end` unconditionally —
also with `reset = false` when the preserved values lie strictly inside
the new domain: concretely, reconfiguring `[0, 200]` with `value_in = 50`
to `[0, 100]` leaves `value_in = 50` but parks the `in` head at pixel 10
while `value_to_pos` of the stored value is 200. -/
theorem c10_reposition (s : RangeSlider) (vm2 vx2 : ℚ) (reset force : Bool)
    (hfire : s.value_min ≠ vm2 ∨ s.value_max ≠ vx2 ∨ force = true) :
    (change_min_max s vm2 vx2 reset force).head_in_x = s.slider_x_start ∧
    (change_min_max s vm2 vx2 reset force).head_out_x = s.slider_x_end ∧
    ((change_min_max c10s 0 100 false false).head_in_x = 10 ∧
     (change_min_max c10s 0 100 false false).value_in = 50 ∧
     value_to_pos (change_min_max c10s 0 100 false false) 50 = some 200 ∧
     (10 : ℚ) ≠ 200) := by
  have hmain : change_min_max s vm2 vx2 reset force =
      { s with
        value_min := vm2, value_max := vx2,
        value_in := if reset then vm2 else min (max s.value_in vm2) vx2,
        value_out := if reset then vx2 else max (min s.value_out vx2) vm2,
        head_in_x := s.slider_x_start, head_out_x := s.slider_x_end,
        user_moved_sliders_since_last_check := false } := by
    unfold change_min_max
    rw [if_pos hfire]
  refine ⟨?_, ?_, ?_, ?_, ?_, by norm_num⟩
  · rw [hmain]
  · rw [hmain]
  · norm_num [change_min_max, c10s]
  · norm_num [change_min_max, c10s, min_def, max_def]
  · norm_num [change_min_max, c10s, value_to_pos, value_to_pos_fn, min_def, max_def]

/-- C10 witness: a forced reconfiguration of the concrete state parks the
heads at the span ends. -/
theorem c10_reposition_witness :
    (change_min_max c10s 0 200 true true).head_in_x = c10s.slider_x_start ∧
    (change_min_max c10s 0 200 true true).head_out_x = c10s.slider_x_end :=
  ⟨(c10_reposition c10s 0 200 true true (Or.inr (Or.inr rfl))).1,
   (c10_reposition c10s 0 200 true true (Or.inr (Or.inr rfl))).2.1⟩

end RangeSliderSpec
